import Mathlib

/-!
Verification development for the Rust SDK backend of the beforeSend playground
(`src/sdks/rust/src/main.rs`).

The service handlers (`transform`, `validate`) are shallowly embedded as pure
Lean functions.  Effectful steps (creating the temp directory, writing files,
spawning `cargo`, running the built artifact, serde (de)serialization) are
modelled by an environment record holding the outcome each step produced for
the request under consideration; the handler body is then a pure function of
that environment, mirroring the Rust control flow match-for-match.

Rust strings are modelled as Lean `String`; byte indices coincide with
character indices on the ASCII text the service manipulates, so `str::find`
and slicing are modelled on the character list.  `String::from_utf8_lossy` is
the identity in this model (subprocess output is modelled as the already
decoded string).
-/

/-- Rust `str::find(pat)`: index of the first occurrence of `pat` in `s`
(character-based; coincides with the Rust byte index on ASCII text). -/
def subAt (pat : List Char) : List Char → Option Nat
  | [] => if pat.isEmpty then some 0 else none
  | c :: t => if pat.isPrefixOf (c :: t) then some 0 else (subAt pat t).map (· + 1)

/-- Rust `str::contains(pat)`. -/
def containsStr (s pat : String) : Bool := (subAt pat.data s.data).isSome

/-- Rust `str::starts_with(pat)`. -/
def startsWithStr (s pat : String) : Bool := pat.data.isPrefixOf s.data

/-- Rust `str::split(sep)` on a single-character separator: every maximal
chunk between separators, including empty ones (`"".split(sep)` is `[""]`). -/
def splitOnChar (sep : Char) : List Char → List (List Char)
  | [] => [[]]
  | c :: t =>
    let r := splitOnChar sep t
    if c = sep then [] :: r
    else
      match r with
      | h :: t2 => (c :: h) :: t2
      | [] => [[c]]

/-- Drop a final empty chunk, as Rust `str::lines` does for a trailing
newline (and for the empty string). -/
def dropLastEmpty (l : List (List Char)) : List (List Char) :=
  match l.getLast? with
  | some [] => l.dropLast
  | _ => l

/-- Strip one trailing carriage return, as Rust `str::lines` does per line. -/
def stripCR (l : List Char) : List Char :=
  match l.getLast? with
  | some c => if c = '\r' then l.dropLast else l
  | none => l

/-- Rust `str::lines()`. -/
def rustLines (s : String) : List String :=
  ((dropLastEmpty (splitOnChar '\n' s.data)).map stripCR).map String.mk

/-- Rust `str::trim()` (on the whitespace characters occurring in the ASCII data of this
service). -/
def trimChars (l : List Char) : List Char :=
  ((l.dropWhile Char.isWhitespace).reverse.dropWhile Char.isWhitespace).reverse

/-- Rust `str::trim()` at `String` level. -/
def rustTrim (s : String) : String := String.mk (trimChars s.data)

/-- Digit-string value: `some n` when the list is nonempty and all decimal
digits. -/
def digitsVal (l : List Char) : Option Nat :=
  if l.isEmpty then none
  else
    l.foldl
      (fun acc c =>
        match acc with
        | none => none
        | some n => if c.isDigit then some (n * 10 + (c.toNat - 48)) else none)
      (some 0)

/-- Rust `usize::from_str` (as invoked by `parse::<usize>()`): an optional
leading plus sign, then at least one decimal digit, failing on any other
character and on 64-bit overflow. -/
def parseUsize (l : List Char) : Option Nat :=
  let core :=
    match l with
    | '+' :: rest => digitsVal rest
    | _ => digitsVal l
  match core with
  | some n => if n < 2 ^ 64 then some n else none
  | none => none

/-- Exit/stdout/stderr of a finished subprocess (`std::process::Output`);
`success` is `status.success()`. -/
structure CmdOutput where
  success : Bool
  stdout : String
  stderr : String
deriving DecidableEq

/-- Model of `serde_json::Value`.  Numbers are modelled as rationals: every
numeric literal the claims exercise (such as `0.5`) is exactly representable. -/
inductive Json where
  | null
  | bool (b : Bool)
  | num (q : ℚ)
  | str (s : String)
  | arr (elems : List Json)
  | obj (fields : List (String × Json))

/-- `ValidationError` from the source: one structured diagnostic. -/
structure ValidationError where
  line : Option Nat
  column : Option Nat
  message : String
deriving DecidableEq

/-- `ValidationResponse` from the source. -/
structure ValidationResponse where
  valid : Bool
  errors : List ValidationError
deriving DecidableEq

/-- `TransformResponse` from the source.  A `none` field is omitted from the
serialized JSON (`skip_serializing_if = "Option::is_none"`). -/
structure TransformResponse where
  success : Bool
  transformed_event : Option Json
  error : Option String
  traceback : Option String

/-- `TransformRequest` from the source. -/
structure TransformRequest where
  event : Json
  before_send_code : String

/-- `ValidationRequest` from the source. -/
structure ValidationRequest where
  code : String

/-- An HTTP response: numeric status plus JSON body.  `HttpResponse::Ok` is
200, `BadRequest` 400, `InternalServerError` 500. -/
structure HttpResp (α : Type) where
  status : Nat
  body : α

/-- `extract_error_summary` from the source: the first line starting with
`error[E` or `error:`, else the first non-empty line, else a fixed message. -/
def extract_error_summary (error_msg : String) : String :=
  match (rustLines error_msg).find? (fun l => startsWithStr l "error[E" || startsWithStr l "error:") with
  | some l => l
  | none =>
    match (rustLines error_msg).find? (fun l => rustTrim l ≠ "") with
    | some l => l
    | none => "Unknown compilation error"

/-- Outcome of one iteration of the loop in `parse_rust_errors`:
skip the line, push a diagnostic and break, or panic (the slice
`&line[pos + 4..]` is out of range when the first `-->` ends the line). -/
inductive LineStep where
  | skip
  | push (line : Option Nat) (column : Option Nat)
  | panic
deriving DecidableEq

/-- One loop iteration of `parse_rust_errors` on a single stderr line. -/
def lineStep (line : String) : LineStep :=
  if containsStr line "error" && containsStr line "-->" then
    match subAt "-->".data line.data with
    | none => .skip
    | some pos =>
      if pos + 4 ≤ line.data.length then
        let location := String.mk (line.data.drop (pos + 4))
        let parts := (splitOnChar ':' location.data).map String.mk
        if parts.length ≥ 2 then
          .push ((parseUsize (rustTrim (parts.getD 1 "")).data).map (fun n => n - 8))
            ((parts.get? 2).bind (fun c => parseUsize (rustTrim c).data))
        else .skip
      else .panic
  else .skip

/-- The loop of `parse_rust_errors` over the stderr lines: the first pushed
diagnostic breaks the loop (so at most one is ever collected);
`none` models the out-of-range slice panic. -/
def goParse (full : String) : List String → Option (List ValidationError)
  | [] => some []
  | l :: rest =>
    match lineStep l with
    | .skip => goParse full rest
    | .push ln col => some [⟨ln, col, extract_error_summary full⟩]
    | .panic => none

/-- `parse_rust_errors` from the source.  `none` models the panic reachable
when the first `-->` of a line is its final characters; otherwise `some` of the
collected diagnostics. -/
def parse_rust_errors (error_msg : String) : Option (List ValidationError) :=
  goParse error_msg (rustLines error_msg)

/-- Head of the validation harness template (the `format!` string of `validate` up
to the snippet hole): nine boilerplate lines and the eight-space indent, so
the first line of the snippet is absolute line 10 of the generated file. -/
def validateHarnessHead : String :=
  "#![allow(unused_imports)]\n" ++
  "#![allow(unused_variables)]\n" ++
  "#![allow(unused_mut)]\n" ++
  "\n" ++
  "use serde_json::Value;\n" ++
  "\n" ++
  "fn main() \x7b\n" ++
  "    let mut event: Value = serde_json::json!(\x7b\x7d);\n" ++
  "    let _result = (|| \x7b\n" ++
  "        "

/-- Tail of the validation harness template, after the snippet hole. -/
def validateHarnessTail : String := "\n    \x7d)();\n\x7d\n"

/-- The generated `src/main.rs` for a validation request. -/
def validateMainRs (code : String) : String :=
  validateHarnessHead ++ code ++ validateHarnessTail

/-- Transform harness template up to the payload-reading call. -/
def transformHeadA : String :=
  "#![allow(unused_imports)]\n" ++
  "#![allow(unused_variables)]\n" ++
  "#![allow(unused_mut)]\n" ++
  "\n" ++
  "use serde_json::\x7bjson, Value\x7d;\n" ++
  "\n" ++
  "/// Result type that supports both event transforms and sample rates\n" ++
  "enum TransformResult \x7b\n" ++
  "    Event(Option<Value>),\n" ++
  "    SampleRate(f64),\n" ++
  "\x7d\n" ++
  "\n" ++
  "impl From<Option<Value>> for TransformResult \x7b\n" ++
  "    fn from(v: Option<Value>) -> Self \x7b\n" ++
  "        TransformResult::Event(v)\n" ++
  "    \x7d\n" ++
  "\x7d\n" ++
  "\n" ++
  "impl From<Value> for TransformResult \x7b\n" ++
  "    fn from(v: Value) -> Self \x7b\n" ++
  "        TransformResult::Event(Some(v))\n" ++
  "    \x7d\n" ++
  "\x7d\n" ++
  "\n" ++
  "impl From<f64> for TransformResult \x7b\n" ++
  "    fn from(v: f64) -> Self \x7b\n" ++
  "        TransformResult::SampleRate(v)\n" ++
  "    \x7d\n" ++
  "\x7d\n" ++
  "\n" ++
  "impl From<f32> for TransformResult \x7b\n" ++
  "    fn from(v: f32) -> Self \x7b\n" ++
  "        TransformResult::SampleRate(v as f64)\n" ++
  "    \x7d\n" ++
  "\x7d\n" ++
  "\n" ++
  "impl From<i32> for TransformResult \x7b\n" ++
  "    fn from(v: i32) -> Self \x7b\n" ++
  "        TransformResult::SampleRate(v as f64)\n" ++
  "    \x7d\n" ++
  "\x7d\n" ++
  "\n" ++
  "impl From<i64> for TransformResult \x7b\n" ++
  "    fn from(v: i64) -> Self \x7b\n" ++
  "        TransformResult::SampleRate(v as f64)\n" ++
  "    \x7d\n" ++
  "\x7d\n" ++
  "\n" ++
  "impl From<()> for TransformResult \x7b\n" ++
  "    fn from(_: ()) -> Self \x7b\n" ++
  "        TransformResult::Event(None)\n" ++
  "    \x7d\n" ++
  "\x7d\n" ++
  "\n" ++
  "fn main() \x7b\n" ++
  "    // Read event from file (avoids string escaping issues)\n" ++
  "    let event_json = "

/-- The call through which the generated harness obtains the payload at run
time, from the fixed well-known file `event.json` in the workspace root. -/
def eventReadCall : String := "std::fs::read_to_string(\"event.json\")"

/-- Transform harness template between the payload-reading call and the
snippet hole. -/
def transformHeadB : String :=
  ".expect(\"Failed to read event.json\");\n" ++
  "    let mut event: Value = serde_json::from_str(&event_json).expect(\"Failed to parse event JSON\");\n" ++
  "\n" ++
  "    // Execute user\x27s code and convert result to TransformResult\n" ++
  "    // The .into() call handles type conversion automatically\n" ++
  "    let result: TransformResult = (|| \x7b\n" ++
  "        "

/-- Head of the transform harness template (everything before the snippet). -/
def transformHarnessHead : String := transformHeadA ++ eventReadCall ++ transformHeadB

/-- Tail of the transform harness template, after the snippet hole. -/
def transformHarnessTail : String :=
  "\n    \x7d)().into();\n" ++
  "\n" ++
  "    // Output result as JSON\n" ++
  "    match result \x7b\n" ++
  "        TransformResult::Event(Some(transformed)) => \x7b\n" ++
  "            println!(\"\x7b\x7d\", serde_json::to_string(&transformed).unwrap());\n" ++
  "        \x7d\n" ++
  "        TransformResult::Event(None) => \x7b\n" ++
  "            println!(\"null\");\n" ++
  "        \x7d\n" ++
  "        TransformResult::SampleRate(rate) => \x7b\n" ++
  "            println!(\"\x7b\x7d\", rate);\n" ++
  "        \x7d\n" ++
  "    \x7d\n" ++
  "\x7d\n"

/-- The generated `src/main.rs` for a transform request: the `format!`
template applied to `req.before_send_code`.  The event payload never appears
in the template. -/
def transformMainRsOf (req : TransformRequest) : String :=
  transformHarnessHead ++ req.before_send_code ++ transformHarnessTail

/-- The `Cargo.toml` written for a transform request. -/
def transformCargoToml : String :=
  "[package]\n" ++
  "name = \"transform\"\n" ++
  "version = \"0.1.0\"\n" ++
  "edition = \"2021\"\n" ++
  "\n" ++
  "[dependencies]\n" ++
  "serde = \x7b version = \"1.0\", features = [\"derive\"] \x7d\n" ++
  "serde_json = \"1.0\"\n"

/-- The files `transform` writes into the workspace, in the order of its
`fs::write` calls, with `event_json` the serialized payload
(`serde_json::to_string(&req.event)`). -/
def transformWorkspaceFiles (req : TransformRequest) (event_json : String) :
    List (String × String) :=
  [("Cargo.toml", transformCargoToml), ("event.json", event_json),
   ("src/main.rs", transformMainRsOf req)]

/-- Outcomes, for one request, of the effectful steps `transform` performs,
in source order.  Each `Except.error` carries the formatted OS/serde error
message the Rust code would interpolate. -/
structure TransformEnv where
  tempdir : Except String Unit
  create_dir : Except String Unit
  to_string : Json → Except String String
  write_cargo_toml : Except String Unit
  write_event_json : Except String Unit
  write_main_rs : Except String Unit
  compile : Except String CmdOutput
  exec : Except String CmdOutput
  from_str : String → Except String Json

/-- The `transform` handler, translated match-for-match from the source:
each early `return` of the Rust code is a branch here. -/
def transform (env : TransformEnv) (req : TransformRequest) : HttpResp TransformResponse :=
  match env.tempdir with
  | .error e => ⟨500, ⟨false, none, some ("Failed to create temp directory: " ++ e), none⟩⟩
  | .ok _ =>
  match env.create_dir with
  | .error e => ⟨500, ⟨false, none, some ("Failed to create src directory: " ++ e), none⟩⟩
  | .ok _ =>
  match env.to_string req.event with
  | .error e => ⟨400, ⟨false, none, some ("Failed to serialize event: " ++ e), none⟩⟩
  | .ok _event_json =>
  match env.write_cargo_toml with
  | .error e => ⟨500, ⟨false, none, some ("Failed to write Cargo.toml: " ++ e), none⟩⟩
  | .ok _ =>
  match env.write_event_json with
  | .error e => ⟨500, ⟨false, none, some ("Failed to write event.json: " ++ e), none⟩⟩
  | .ok _ =>
  match env.write_main_rs with
  | .error e => ⟨500, ⟨false, none, some ("Failed to write main.rs: " ++ e), none⟩⟩
  | .ok _ =>
  match env.compile with
  | .error e => ⟨500, ⟨false, none, some ("Failed to run cargo: " ++ e), none⟩⟩
  | .ok compile_result =>
  if !compile_result.success then
    ⟨400, ⟨false, none,
      some ("Compilation error: " ++ extract_error_summary compile_result.stderr),
      some compile_result.stderr⟩⟩
  else
  match env.exec with
  | .error e => ⟨500, ⟨false, none, some ("Failed to execute transform: " ++ e), none⟩⟩
  | .ok exec_result =>
  if !exec_result.success then
    ⟨500, ⟨false, none, some ("Runtime error: " ++ exec_result.stderr), some exec_result.stderr⟩⟩
  else
    let output_str := rustTrim exec_result.stdout
    if output_str = "null" then ⟨200, ⟨true, none, none, none⟩⟩
    else
      match env.from_str output_str with
      | .ok value => ⟨200, ⟨true, some value, none, none⟩⟩
      | .error e =>
        ⟨500, ⟨false, none,
          some ("Failed to parse result \x27" ++ output_str ++ "\x27: " ++ e), none⟩⟩

/-- Outcomes, for one request, of the effectful steps `validate` performs,
in source order. -/
structure ValidateEnv where
  tempdir : Except String Unit
  create_dir : Except String Unit
  write_cargo_toml : Except String Unit
  write_main_rs : Except String Unit
  check : Except String CmdOutput

/-- The 500 response `validate` builds for every internal service failure. -/
def validateSvcError (e : String) : HttpResp ValidationResponse :=
  ⟨500, ⟨false, [⟨none, none, "Validation service error: " ++ e⟩]⟩⟩

/-- The `validate` handler, translated match-for-match from the source.
`none` models the panic that `parse_rust_errors` can raise escaping the
handler (no response is produced then). -/
def validate (env : ValidateEnv) (_req : ValidationRequest) :
    Option (HttpResp ValidationResponse) :=
  match env.tempdir with
  | .error e => some (validateSvcError e)
  | .ok _ =>
  match env.create_dir with
  | .error e => some (validateSvcError e)
  | .ok _ =>
  match env.write_cargo_toml with
  | .error e => some (validateSvcError e)
  | .ok _ =>
  match env.write_main_rs with
  | .error e => some (validateSvcError e)
  | .ok _ =>
  match env.check with
  | .error e => some (validateSvcError e)
  | .ok check_result =>
  if !check_result.success then
    match parse_rust_errors check_result.stderr with
    | none => none
    | some errors =>
      some ⟨200, ⟨false,
        if errors.isEmpty then [⟨none, none, check_result.stderr⟩] else errors⟩⟩
  else some ⟨200, ⟨true, []⟩⟩

/-- Whether an `Except` step succeeded (`Result::is_ok`). -/
def exceptOk {α : Type} (r : Except String α) : Bool :=
  match r with
  | .ok _ => true
  | .error _ => false

/-- The `transform` request reaches the `cargo build` invocation: every
earlier effectful step succeeded. -/
def reachesCompile (env : TransformEnv) (req : TransformRequest) : Bool :=
  exceptOk env.tempdir && exceptOk env.create_dir && exceptOk (env.to_string req.event) &&
  exceptOk env.write_cargo_toml && exceptOk env.write_event_json && exceptOk env.write_main_rs

/-- The compiler was spawned and exited with status zero. -/
def compileOkSuccess (env : TransformEnv) : Bool :=
  match env.compile with
  | .ok o => o.success
  | .error _ => false

/-- The compiler was spawned and exited with nonzero status. -/
def compileNonzero (env : TransformEnv) : Bool :=
  match env.compile with
  | .ok o => !o.success
  | .error _ => false

/-- The `transform` request reaches the execution of the built artifact. -/
def reachesExec (env : TransformEnv) (req : TransformRequest) : Bool :=
  reachesCompile env req && compileOkSuccess env

/-- The built artifact was spawned and exited with nonzero status. -/
def execNonzero (env : TransformEnv) : Bool :=
  match env.exec with
  | .ok o => !o.success
  | .error _ => false

/-- The `validate` request reaches the `cargo check` invocation. -/
def reachesCheck (env : ValidateEnv) : Bool :=
  exceptOk env.tempdir && exceptOk env.create_dir &&
  exceptOk env.write_cargo_toml && exceptOk env.write_main_rs

/-- Claimed behaviour of the `/transform` result decoder, stated from the
words of the claim: trim; the literal token `null` means discard (success with
the `transformedEvent` field omitted); otherwise one JSON parse of the
trimmed text covers objects and bare numerals alike; a parse failure means
`success: false` with an error and no `transformedEvent`. -/
def transformDecodeClaim (fromStr : String → Except String Json) (stdout : String)
    (r : HttpResp TransformResponse) : Prop :=
  if rustTrim stdout = "null" then
    r.body.success = true ∧ r.body.transformed_event = none
  else
    match fromStr (rustTrim stdout) with
    | .ok v => r.body.success = true ∧ r.body.transformed_event = some v
    | .error _ =>
      r.body.success = false ∧ r.body.error.isSome = true ∧ r.body.transformed_event = none

/-- Claimed behaviour of the compile stage of `/transform`, stated from the
words of the claim: a spawn failure is an internal 500 with no traceback; a
nonzero compiler exit is a caller-attributable 400 carrying a one-line
summary, the full stderr as traceback, and no `transformedEvent`. -/
def compileStageClaim (env : TransformEnv) (r : HttpResp TransformResponse) : Prop :=
  match env.compile with
  | .error _ =>
    r.status = 500 ∧ r.body.success = false ∧ r.body.traceback = none ∧
    r.body.error.isSome = true ∧ r.body.transformed_event = none
  | .ok o =>
    if o.success then True
    else
      r.status = 400 ∧ r.body.success = false ∧ r.body.transformed_event = none ∧
      r.body.error = some ("Compilation error: " ++ extract_error_summary o.stderr) ∧
      r.body.traceback = some o.stderr ∧
      containsStr (extract_error_summary o.stderr) "\n" = false

/-- Field invariant of a `/transform` response body: success carries no
error and no traceback; failure carries an error and no transformed event. -/
def transformFieldInvariant (r : TransformResponse) : Bool :=
  if r.success then r.error.isNone && r.traceback.isNone
  else r.transformed_event.isNone && r.error.isSome

/-- Invariant of a produced `/validate` response: `valid` iff the error list
is empty (a panic produces no response and is vacuously fine). -/
def validInvariant (o : Option (HttpResp ValidationResponse)) : Bool :=
  match o with
  | none => true
  | some r => r.body.valid == r.body.errors.isEmpty

/-- The `TransformResult` enum of the generated harness. -/
inductive GenTransformResult where
  | event (v : Option Json)
  | sampleRate (r : ℚ)

/-- The return shapes the generated harness accepts from the closure of the
snippet, one per `From` impl in the template (`f64`/`f32` modelled as the
exact rationals the claims exercise, `i32`/`i64` as integers). -/
inductive SnippetValue where
  | optionValue (v : Option Json)
  | value (v : Json)
  | f64 (r : ℚ)
  | f32 (r : ℚ)
  | i32 (n : Int)
  | i64 (n : Int)
  | unit

/-- The `.into()` coercion layer of the generated harness: the seven `From`
impls of the template. -/
def intoTransformResult : SnippetValue → GenTransformResult
  | .optionValue v => .event v
  | .value v => .event (some v)
  | .f64 r => .sampleRate r
  | .f32 r => .sampleRate r
  | .i32 n => .sampleRate (n : ℚ)
  | .i64 n => .sampleRate (n : ℚ)
  | .unit => .event none

/-- What the `main` of the generated harness prints for a coerced result, given
models of `serde_json::to_string` and of the `Display` of `f64` (`println!`
appends a newline; a kept event is serialized, a drop prints `null`, a
sample rate is printed bare). -/
def harnessStdout (serToStr : Json → String) (dispF64 : ℚ → String) :
    GenTransformResult → String
  | .event (some t) => serToStr t ++ "\n"
  | .event none => "null\n"
  | .sampleRate r => dispF64 r ++ "\n"

/-- A `tempfile::TempDir` handle: `persisted` records whether ownership of
the directory was leaked via `into_path`/`keep` (this service never does). -/
structure TempDir where
  persisted : Bool

/-- `tempfile::tempdir()`: a fresh handle is never persisted. -/
def tempfileTempdir (r : Except String Unit) : Except String TempDir :=
  r.map (fun _ => TempDir.mk false)

/-- `Drop` for `TempDir`: the directory tree is removed at scope exit unless
the handle was persisted.  Rust runs this on every return path and during
unwinding. -/
def dropRemoves (d : TempDir) : Bool := !d.persisted

/-- Fate of the workspace directory of one request: whether it was created,
and whether it had been removed by the end of the request. -/
structure DirOutcome where
  created : Bool
  removed : Bool

/-- The cleanup contract: a created directory is removed. -/
def cleanupOk (d : DirOutcome) : Bool := !d.created || d.removed

/-- The `transform` handler together with the fate of its workspace: the
`TempDir` bound at the top of the handler is dropped at scope exit on every
return path. -/
def transformHandler (env : TransformEnv) (req : TransformRequest) :
    HttpResp TransformResponse × DirOutcome :=
  match tempfileTempdir env.tempdir with
  | .error _ => (transform env req, ⟨false, false⟩)
  | .ok dir => (transform env req, ⟨true, dropRemoves dir⟩)

/-- Possible ends of a request: a response, or a panic unwinding out of the
handler. -/
inductive HandlerResult (α : Type) where
  | response (r : α)
  | panicked

/-- The `validate` handler together with the fate of its workspace; the
`TempDir` is dropped both on ordinary returns and while unwinding from the
`parse_rust_errors` panic. -/
def validateHandler (env : ValidateEnv) (req : ValidationRequest) :
    HandlerResult (HttpResp ValidationResponse) × DirOutcome :=
  match tempfileTempdir env.tempdir with
  | .error e => (.response (validateSvcError e), ⟨false, false⟩)
  | .ok dir =>
    (match validate env req with
     | some r => .response r
     | none => .panicked,
     ⟨true, dropRemoves dir⟩)

/-- A fully healthy `transform` environment whose artifact prints `null`
(used to instantiate theorems at a concrete input). -/
def okTransformEnv : TransformEnv where
  tempdir := .ok ()
  create_dir := .ok ()
  to_string := fun _ => .ok "null"
  write_cargo_toml := .ok ()
  write_event_json := .ok ()
  write_main_rs := .ok ()
  compile := .ok ⟨true, "", ""⟩
  exec := .ok ⟨true, "null", ""⟩
  from_str := fun _ => .error "unparsed"

/-- A concrete transform request. -/
def okReq : TransformRequest := ⟨Json.null, "None"⟩

/-- `okTransformEnv` with a compiler that exits nonzero. -/
def c3Env : TransformEnv :=
  { okTransformEnv with compile := .ok ⟨false, "", "error: boom"⟩ }

/-- `okTransformEnv` with an artifact printing `0.5` and a JSON parser
recognizing it. -/
def c7Env : TransformEnv :=
  { okTransformEnv with
    exec := .ok ⟨true, "0.5\n", ""⟩
    from_str := fun s => if s = "0.5" then .ok (Json.num (1 / 2)) else .error "unexpected" }

/-- Model of the `Display` of `f64` at the one value the sampler claim exercises. -/
def c7Disp : ℚ → String := fun _ => "0.5"

/-- Model of `serde_json::to_string` (unused on the sampler path). -/
def c7Ser : Json → String := fun _ => ""

/-- A fully healthy `validate` environment whose check passes. -/
def okValidateEnv : ValidateEnv where
  tempdir := .ok ()
  create_dir := .ok ()
  write_cargo_toml := .ok ()
  write_main_rs := .ok ()
  check := .ok ⟨true, "", ""⟩

/-- Compiler stderr with an error line but no `-->` position marker and more
than one line: the first non-empty line differs from the whole text. -/
def c4Stderr : String := "error: expected one of\nnote: x"

/-- `okValidateEnv` with a failing check whose stderr is `c4Stderr`. -/
def c4Env : ValidateEnv := { okValidateEnv with check := .ok ⟨false, "", c4Stderr⟩ }

/-- Marker-free failing stderr used to instantiate the amended no-marker
theorem. -/
def c4wStderr : String := "error: foo\nbar"

/-- `okValidateEnv` with a failing check whose stderr is `c4wStderr`. -/
def c4wEnv : ValidateEnv := { okValidateEnv with check := .ok ⟨false, "", c4wStderr⟩ }

/-- Stderr whose first line carries both an `error` marker and a `-->`
marker but no colon after the arrow, followed by a well-formed error line. -/
def c5Stderr : String := "error --> x\nerror --> src/main.rs:10:5"

/-- A single well-formed error line, for instantiating the amended
first-error theorem. -/
def c5wStderr : String := "error --> src/main.rs:10:5"

theorem stringDataAppend (a b : String) : (a ++ b).data = a.data ++ b.data := rfl

theorem splitOnChar_ne_nil (sep : Char) (l : List Char) : splitOnChar sep l ≠ [] := by
  induction l with
  | nil => simp [splitOnChar]
  | cons c t ih =>
    rw [splitOnChar]
    by_cases h : c = sep
    · simp [h]
    · simp only [h, if_false]
      rcases hr : splitOnChar sep t with _ | ⟨hd, tl⟩
      · exact absurd hr ih
      · simp

theorem sep_not_mem_splitOnChar (sep : Char) (l : List Char) (p : List Char)
    (hp : p ∈ splitOnChar sep l) : sep ∉ p := by
  induction l generalizing p with
  | nil =>
    simp [splitOnChar] at hp
    simp [hp]
  | cons c t ih =>
    rw [splitOnChar] at hp
    by_cases h : c = sep
    · simp only [h, if_true] at hp
      rcases List.mem_cons.mp hp with hp | hp
      · simp [hp]
      · exact ih p hp
    · simp only [h, if_false] at hp
      rcases hr : splitOnChar sep t with _ | ⟨hd, tl⟩
      · exact absurd hr (splitOnChar_ne_nil sep t)
      · rw [hr] at hp
        rcases List.mem_cons.mp hp with hp | hp
        · subst hp
          intro hmem
          rcases List.mem_cons.mp hmem with hmem | hmem
          · exact h hmem.symm
          · exact ih hd (hr ▸ List.mem_cons_self hd tl) hmem
        · exact ih p (hr ▸ List.mem_cons_of_mem hd hp)

theorem newline_not_mem_rustLines (s : String) (l : String) (h : l ∈ rustLines s) :
    '\n' ∉ l.data := by
  unfold rustLines at h
  rcases List.mem_map.mp h with ⟨q, hq, rfl⟩
  rcases List.mem_map.mp hq with ⟨p, hp, rfl⟩
  have hmem : p ∈ splitOnChar '\n' s.data := by
    unfold dropLastEmpty at hp
    rcases hlast : (splitOnChar '\n' s.data).getLast? with _ | lp
    · rw [hlast] at hp; exact hp
    · rcases lp with _ | ⟨c, t⟩
      · rw [hlast] at hp
        exact List.dropLast_subset _ hp
      · rw [hlast] at hp; exact hp
  intro hnl
  have hnl2 : '\n' ∈ p := by
    unfold stripCR at hnl
    rcases hl2 : p.getLast? with _ | c
    · rw [hl2] at hnl; exact hnl
    · rw [hl2] at hnl
      by_cases hc : c = '\r'
      · simp only [hc, if_true] at hnl
        exact List.dropLast_subset _ hnl
      · simp only [hc, if_false] at hnl; exact hnl
  exact sep_not_mem_splitOnChar '\n' s.data p hmem hnl2

theorem subAt_single_none (c : Char) (l : List Char) (h : c ∉ l) : subAt [c] l = none := by
  induction l with
  | nil => simp [subAt]
  | cons a t ih =>
    rw [subAt]
    have hca : ¬([c].isPrefixOf (a :: t) = true) := by
      simp only [List.isPrefixOf, Bool.and_eq_true, beq_iff_eq]
      intro hpre
      exact h (hpre.1 ▸ List.mem_cons_self a t)
    simp only [hca, if_false]
    rw [ih (fun hm => h (List.mem_cons_of_mem a hm))]
    rfl

theorem containsStr_newline_false (s : String) (h : '\n' ∉ s.data) :
    containsStr s "\n" = false := by
  unfold containsStr
  rw [show ("\n" : String).data = ['\n'] from rfl, subAt_single_none '\n' s.data h]
  rfl

theorem summary_no_newline (s : String) :
    containsStr (extract_error_summary s) "\n" = false := by
  unfold extract_error_summary
  rcases h1 : (rustLines s).find? (fun l => startsWithStr l "error[E" || startsWithStr l "error:") with _ | l1
  · rcases h2 : (rustLines s).find? (fun l => rustTrim l ≠ "") with _ | l2
    · decide
    · exact containsStr_newline_false l2
        (newline_not_mem_rustLines s l2 (List.mem_of_find?_eq_some h2))
  · exact containsStr_newline_false l1
      (newline_not_mem_rustLines s l1 (List.mem_of_find?_eq_some h1))

theorem lineStep_skip_of_no_arrow (l : String) (h : containsStr l "-->" = false) :
    lineStep l = LineStep.skip := by
  unfold lineStep
  rw [h]
  simp

theorem goParse_nil_of_all_skip (full : String) (lines : List String)
    (h : ∀ l ∈ lines, lineStep l = LineStep.skip) : goParse full lines = some [] := by
  induction lines with
  | nil => rfl
  | cons a rest ih =>
    rw [goParse, h a (List.mem_cons_self a rest)]
    exact ih (fun l hl => h l (List.mem_cons_of_mem a hl))

theorem goParse_spec (full : String) (lines : List String) (l : List ValidationError)
    (h : goParse full lines = some l) :
    l.length ≤ 1 ∧
    ∀ d ∈ l, d.message = extract_error_summary full ∧
      ∃ pre l0 post, lines = pre ++ l0 :: post ∧
        (∀ x ∈ pre, lineStep x = LineStep.skip) ∧
        lineStep l0 = LineStep.push d.line d.column := by
  induction lines generalizing l with
  | nil =>
    rw [goParse] at h
    obtain rfl : ([] : List ValidationError) = l := Option.some.inj h
    simp
  | cons a rest ih =>
    rw [goParse] at h
    rcases hs : lineStep a with _ | ⟨ln, col⟩ | _ <;> rw [hs] at h
    · obtain ⟨h1, h2⟩ := ih l h
      refine ⟨h1, fun d hd => ?_⟩
      obtain ⟨hm, pre, l0, post, heq, hpre, hl0⟩ := h2 d hd
      refine ⟨hm, a :: pre, l0, post, by rw [heq]; rfl, ?_, hl0⟩
      intro x hx
      rcases List.mem_cons.mp hx with hx | hx
      · exact hx ▸ hs
      · exact hpre x hx
    · obtain rfl : [(⟨ln, col, extract_error_summary full⟩ : ValidationError)] = l :=
        Option.some.inj h
      refine ⟨by simp, fun d hd => ?_⟩
      obtain rfl : d = ⟨ln, col, extract_error_summary full⟩ := by
        simpa using hd
      exact ⟨rfl, [], a, rest, rfl, by simp, hs⟩
    · exact absurd h (by simp)

/-- C2: the validation harness has nine boilerplate lines before the
snippet (so the first line of the snippet is absolute line 10), yet
`parse_rust_errors` subtracts only 8: a compiler error on the first line of the snippet
itself (`src/main.rs:10:22`) is reported with `line = 2`, not the
claimed `line = 1`. -/
theorem validate_line_offset_off_by_one :
    validateHarnessHead.data.count '\n' = 9 ∧
    parse_rust_errors "error[E0308]: mismatched types --> src/main.rs:10:22" =
      some [⟨some 2, some 22, "error[E0308]: mismatched types --> src/main.rs:10:22"⟩] := by
  constructor
  · decide
  · decide

/-- C5 counterexample: the first stderr line carrying both an `error` marker
and a `-->` marker can be skipped (no colon after the arrow), and the
surfaced diagnostic is then built from a later line: the parser returns a
diagnostic with `line = 2, column = 5` although the first marker-bearing
line `error --> x` contains no digits at all. -/
theorem parse_first_marker_line_skipped :
    parse_rust_errors c5Stderr = some [⟨some 2, some 5, "error --> x"⟩] ∧
    (rustLines c5Stderr).find? (fun l => containsStr l "error" && containsStr l "-->") =
      some "error --> x" ∧
    lineStep "error --> x" = LineStep.skip := by
  refine ⟨by decide, by decide, by decide⟩

/-- C5 (amended): whenever `parse_rust_errors` returns (it panics only on a
line whose first `-->` ends the line), the returned list has length at most
one, and a surfaced diagnostic is built from the first stderr line that
carries an error marker, a `-->` marker, and a colon-separated location
after the arrow (every earlier line having been skipped), its message being
the compiler-output summary. -/
theorem parse_rust_errors_at_most_one (s : String) (l : List ValidationError)
    (h : parse_rust_errors s = some l) :
    l.length ≤ 1 ∧
    ∀ d ∈ l, d.message = extract_error_summary s ∧
      ∃ pre l0 post, rustLines s = pre ++ l0 :: post ∧
        (∀ x ∈ pre, lineStep x = LineStep.skip) ∧
        lineStep l0 = LineStep.push d.line d.column :=
  goParse_spec s (rustLines s) l h

/-- Witness for the amended C5 theorem at a concrete stderr. -/
theorem parse_rust_errors_at_most_one_witness :
    parse_rust_errors c5wStderr = some [⟨some 2, some 5, c5wStderr⟩] ∧
    ([(⟨some 2, some 5, c5wStderr⟩ : ValidationError)].length ≤ 1 ∧
      ∀ d ∈ [(⟨some 2, some 5, c5wStderr⟩ : ValidationError)],
        d.message = extract_error_summary c5wStderr ∧
        ∃ pre l0 post, rustLines c5wStderr = pre ++ l0 :: post ∧
          (∀ x ∈ pre, lineStep x = LineStep.skip) ∧
          lineStep l0 = LineStep.push d.line d.column) :=
  ⟨by decide, parse_rust_errors_at_most_one c5wStderr _ (by decide)⟩

/-- C6: two transform requests with the same snippet but different payloads
generate identical harness sources; the payload is written, serialized, to
the fixed workspace file `event.json`, and the harness text itself contains
the call reading that file at run time — the payload is never interpolated
into the source text. -/
theorem transform_harness_independent_of_payload (e1 e2 : Json) (code : String)
    (event_json : String) :
    transformMainRsOf ⟨e1, code⟩ = transformMainRsOf ⟨e2, code⟩ ∧
    (transformWorkspaceFiles ⟨e1, code⟩ event_json).lookup "event.json" = some event_json ∧
    ∃ s t, (transformMainRsOf ⟨e1, code⟩).data = s ++ eventReadCall.data ++ t := by
  refine ⟨rfl, rfl, ?_⟩
  refine ⟨transformHeadA.data, (transformHeadB ++ code ++ transformHarnessTail).data, ?_⟩
  simp [transformMainRsOf, transformHarnessHead, stringDataAppend, List.append_assoc]

/-- C8: on every exit path of either handler, a workspace directory created
for the request has been removed by the end of the request (the `TempDir`
bound at the top of each handler is dropped at scope exit, also while
unwinding from the parser panic, and is never persisted). -/
theorem workspace_removed_on_every_path (tEnv : TransformEnv) (tReq : TransformRequest)
    (vEnv : ValidateEnv) (vReq : ValidationRequest) :
    cleanupOk (transformHandler tEnv tReq).2 = true ∧
    cleanupOk (validateHandler vEnv vReq).2 = true := by
  constructor
  · rcases h : tEnv.tempdir with e | u <;>
      simp [transformHandler, tempfileTempdir, h, cleanupOk, dropRemoves, Except.map]
  · rcases h : vEnv.tempdir with e | u <;>
      simp [validateHandler, tempfileTempdir, h, cleanupOk, dropRemoves, Except.map]

theorem exceptOk_iff {α : Type} (r : Except String α) : exceptOk r = true ↔ ∃ a, r = .ok a := by
  cases r <;> simp [exceptOk]

/-- C9: every response `/validate` produces satisfies
`valid = errors.is_empty()`: the success path is `valid: true` with no
errors, and every failure path carries at least one error (the raw-stderr
fallback substituting when the parser extracted none). -/
theorem validate_valid_iff_no_errors (env : ValidateEnv) (req : ValidationRequest) :
    validInvariant (validate env req) = true := by
  rcases htd : env.tempdir with e | u <;>
    rcases hcd : env.create_dir with e2 | u2 <;>
    rcases hwc : env.write_cargo_toml with e3 | u3 <;>
    rcases hwm : env.write_main_rs with e4 | u4 <;>
    rcases hck : env.check with e5 | ⟨cs, so, se⟩ <;>
    simp only [validate, htd, hcd, hwc, hwm, hck]
  all_goals try (cases cs)
  all_goals try (rcases hp : parse_rust_errors se with _ | errs <;> simp only [hp])
  all_goals try (cases herrs : errs.isEmpty)
  all_goals simp_all [validInvariant, validateSvcError]

/-- C4 counterexample: on marker-free stderr the message of the fallback
diagnostic is the entire stderr text, not the first non-empty line: here the
first non-empty line is `error: expected one of` but the produced message is
the full two-line text. -/
theorem validate_no_marker_message_cex :
    validate c4Env ⟨"code"⟩ = some ⟨200, ⟨false, [⟨none, none, c4Stderr⟩]⟩⟩ ∧
    (rustLines c4Stderr).find? (fun l => rustTrim l ≠ "") = some "error: expected one of" ∧
    c4Stderr ≠ "error: expected one of" := by
  refine ⟨rfl, by decide, by decide⟩

/-- C4 (amended): on compiler stderr free of `-->` position markers,
`/validate` returns exactly one diagnostic with no line and no column whose
message is the entire stderr text. -/
theorem validate_no_marker_single_fallback (env : ValidateEnv) (req : ValidationRequest)
    (out : CmdOutput) (h1 : reachesCheck env = true) (h2 : env.check = .ok out)
    (h3 : out.success = false)
    (h4 : (rustLines out.stderr).all (fun l => !containsStr l "-->") = true) :
    validate env req = some ⟨200, ⟨false, [⟨none, none, out.stderr⟩]⟩⟩ := by
  have hp : parse_rust_errors out.stderr = some [] := by
    unfold parse_rust_errors
    refine goParse_nil_of_all_skip out.stderr (rustLines out.stderr) (fun l hl => ?_)
    refine lineStep_skip_of_no_arrow l ?_
    have hx := List.all_eq_true.mp h4 l hl
    simpa using hx
  simp only [reachesCheck, Bool.and_eq_true, and_assoc] at h1
  obtain ⟨h1a, h1b, h1c, h1d⟩ := h1
  obtain ⟨u1, htd⟩ := (exceptOk_iff _).mp h1a
  obtain ⟨u2, hcd⟩ := (exceptOk_iff _).mp h1b
  obtain ⟨u3, hwc⟩ := (exceptOk_iff _).mp h1c
  obtain ⟨u4, hwm⟩ := (exceptOk_iff _).mp h1d
  simp [validate, htd, hcd, hwc, hwm, h2, h3, hp]

/-- Witness for the amended C4 theorem at a concrete marker-free stderr. -/
theorem validate_no_marker_single_fallback_witness :
    reachesCheck c4wEnv = true ∧
    c4wEnv.check = .ok ⟨false, "", c4wStderr⟩ ∧
    (CmdOutput.mk false "" c4wStderr).success = false ∧
    (rustLines (CmdOutput.mk false "" c4wStderr).stderr).all
      (fun l => !containsStr l "-->") = true ∧
    validate c4wEnv ⟨"fn"⟩ =
      some ⟨200, ⟨false, [⟨none, none, (CmdOutput.mk false "" c4wStderr).stderr⟩]⟩⟩ :=
  ⟨rfl, rfl, rfl, by decide,
    validate_no_marker_single_fallback c4wEnv ⟨"fn"⟩ ⟨false, "", c4wStderr⟩ rfl rfl rfl (by decide)⟩

/-- C1: once the artifact has run successfully, the `/transform` result
decoder trims the stdout; the literal token `null` yields a discard
(`success: true`, `transformedEvent` omitted); otherwise a single JSON parse
of the trimmed text (covering objects and bare numerals alike) is returned
as `transformedEvent`; a parse failure yields `success: false` with an error
and no `transformedEvent`. -/
theorem transform_result_decoder_claim (env : TransformEnv) (req : TransformRequest)
    (out : CmdOutput) (h1 : reachesExec env req = true) (h2 : env.exec = .ok out)
    (h3 : out.success = true) :
    transformDecodeClaim env.from_str out.stdout (transform env req) := by
  simp only [reachesExec, reachesCompile, Bool.and_eq_true, and_assoc] at h1
  obtain ⟨h1a, h1b, h1c, h1d, h1e, h1f, h1g⟩ := h1
  obtain ⟨u1, htd⟩ := (exceptOk_iff _).mp h1a
  obtain ⟨u2, hcd⟩ := (exceptOk_iff _).mp h1b
  obtain ⟨sj, hts⟩ := (exceptOk_iff _).mp h1c
  obtain ⟨u3, hwc⟩ := (exceptOk_iff _).mp h1d
  obtain ⟨u4, hwe⟩ := (exceptOk_iff _).mp h1e
  obtain ⟨u5, hwm⟩ := (exceptOk_iff _).mp h1f
  rcases hcp : env.compile with e | co
  · rw [compileOkSuccess, hcp] at h1g
    exact absurd h1g (by simp)
  rw [compileOkSuccess, hcp] at h1g
  simp at h1g
  simp only [transform, htd, hcd, hts, hwc, hwe, hwm, hcp, h2, h1g, h3]
  by_cases hnull : rustTrim out.stdout = "null"
  · simp [transformDecodeClaim, hnull]
  · rcases hfs : env.from_str (rustTrim out.stdout) with e | v <;>
      simp [transformDecodeClaim, hnull, hfs]

/-- Witness for the C1 theorem at a concrete healthy environment whose
artifact printed `null`. -/
theorem transform_result_decoder_claim_witness :
    reachesExec okTransformEnv okReq = true ∧
    okTransformEnv.exec = .ok ⟨true, "null", ""⟩ ∧
    (CmdOutput.mk true "null" "").success = true ∧
    transformDecodeClaim okTransformEnv.from_str (CmdOutput.mk true "null" "").stdout
      (transform okTransformEnv okReq) :=
  ⟨rfl, rfl, rfl,
    transform_result_decoder_claim okTransformEnv okReq ⟨true, "null", ""⟩ rfl rfl rfl⟩

/-- C3: whenever the compile stage of `/transform` is reached, a compiler
that ran and exited nonzero produces a 400 with `success: false`, an error
carrying a one-line summary, the full compiler stderr as traceback, and no
`transformedEvent`, while a failure to spawn the compiler at all produces a
distinct internal 500 with no traceback. -/
theorem transform_compile_stage_claims (env : TransformEnv) (req : TransformRequest)
    (h1 : reachesCompile env req = true) :
    compileStageClaim env (transform env req) := by
  simp only [reachesCompile, Bool.and_eq_true, and_assoc] at h1
  obtain ⟨h1a, h1b, h1c, h1d, h1e, h1f⟩ := h1
  obtain ⟨u1, htd⟩ := (exceptOk_iff _).mp h1a
  obtain ⟨u2, hcd⟩ := (exceptOk_iff _).mp h1b
  obtain ⟨sj, hts⟩ := (exceptOk_iff _).mp h1c
  obtain ⟨u3, hwc⟩ := (exceptOk_iff _).mp h1d
  obtain ⟨u4, hwe⟩ := (exceptOk_iff _).mp h1e
  obtain ⟨u5, hwm⟩ := (exceptOk_iff _).mp h1f
  unfold compileStageClaim
  rcases hcp : env.compile with e | co
  · simp [transform, htd, hcd, hts, hwc, hwe, hwm, hcp]
  · cases hcs : co.success
    · simp [transform, htd, hcd, hts, hwc, hwe, hwm, hcp, hcs, summary_no_newline]
    · simp [hcs]

/-- Witness for the C3 theorem at a concrete environment whose compiler
exits nonzero. -/
theorem transform_compile_stage_claims_witness :
    reachesCompile c3Env okReq = true ∧ compileStageClaim c3Env (transform c3Env okReq) :=
  ⟨rfl, transform_compile_stage_claims c3Env okReq rfl⟩

theorem transform_invariant_aux (env : TransformEnv) (req : TransformRequest) :
    transformFieldInvariant (transform env req).body = true := by
  unfold transform
  repeat' split
  all_goals simp only [transformFieldInvariant]
  all_goals (repeat' split)
  all_goals simp_all

theorem transform_traceback_aux (env : TransformEnv) (req : TransformRequest) :
    (transform env req).body.traceback.isSome =
      (reachesCompile env req && compileNonzero env || reachesExec env req && execNonzero env) := by
  unfold transform
  repeat' split
  all_goals simp_all [reachesCompile, reachesExec, compileOkSuccess, compileNonzero,
    execNonzero, exceptOk]
  all_goals (repeat' split)
  all_goals simp_all

/-- C10: every `/transform` response keeps the field invariant — success
carries no error and no traceback, failure carries an error and no
`transformedEvent` — and a traceback is present exactly on the
compile-failure and runtime-failure paths, never on workspace, toolchain,
or output-parse failures. -/
theorem transform_response_field_invariants (env : TransformEnv) (req : TransformRequest) :
    transformFieldInvariant (transform env req).body = true ∧
    (transform env req).body.traceback.isSome =
      (reachesCompile env req && compileNonzero env || reachesExec env req && execNonzero env) :=
  ⟨transform_invariant_aux env req, transform_traceback_aux env req⟩

/-- C7: a snippet whose final expression is the `f64` literal `0.5` is
coerced by the generated harness into the `SampleRate` variant and printed
bare; decoding that stdout makes `/transform` return `transformedEvent`
equal to the JSON number `0.5` — not a string, not an object. -/
theorem transform_sampler_claim (env : TransformEnv) (req : TransformRequest)
    (out : CmdOutput) (serToStr : Json → String) (dispF64 : ℚ → String)
    (h1 : reachesExec env req = true) (h2 : env.exec = .ok out) (h3 : out.success = true)
    (h4 : out.stdout =
      harnessStdout serToStr dispF64 (intoTransformResult (SnippetValue.f64 (1 / 2))))
    (h5 : dispF64 (1 / 2) = "0.5") (h6 : env.from_str "0.5" = .ok (Json.num (1 / 2))) :
    intoTransformResult (SnippetValue.f64 (1 / 2)) = GenTransformResult.sampleRate (1 / 2) ∧
    transform env req = ⟨200, ⟨true, some (Json.num (1 / 2)), none, none⟩⟩ := by
  refine ⟨rfl, ?_⟩
  have hstd : out.stdout = "0.5\n" := by
    rw [h4]
    show dispF64 (1 / 2) ++ "\n" = "0.5\n"
    rw [h5]
    decide
  have htrim : rustTrim "0.5\n" = "0.5" := by decide
  simp only [reachesExec, reachesCompile, Bool.and_eq_true, and_assoc] at h1
  obtain ⟨h1a, h1b, h1c, h1d, h1e, h1f, h1g⟩ := h1
  obtain ⟨u1, htd⟩ := (exceptOk_iff _).mp h1a
  obtain ⟨u2, hcd⟩ := (exceptOk_iff _).mp h1b
  obtain ⟨sj, hts⟩ := (exceptOk_iff _).mp h1c
  obtain ⟨u3, hwc⟩ := (exceptOk_iff _).mp h1d
  obtain ⟨u4, hwe⟩ := (exceptOk_iff _).mp h1e
  obtain ⟨u5, hwm⟩ := (exceptOk_iff _).mp h1f
  rcases hcp : env.compile with e | co
  · rw [compileOkSuccess, hcp] at h1g
    exact absurd h1g (by simp)
  rw [compileOkSuccess, hcp] at h1g
  simp at h1g
  simp [transform, htd, hcd, hts, hwc, hwe, hwm, hcp, h1g, h2, h3, hstd, htrim, h6]

/-- Witness for the C7 theorem at a concrete environment whose artifact
printed `0.5`. -/
theorem transform_sampler_claim_witness :
    reachesExec c7Env okReq = true ∧
    c7Env.exec = .ok ⟨true, "0.5\n", ""⟩ ∧
    (CmdOutput.mk true "0.5\n" "").success = true ∧
    (CmdOutput.mk true "0.5\n" "").stdout =
      harnessStdout c7Ser c7Disp (intoTransformResult (SnippetValue.f64 (1 / 2))) ∧
    c7Disp (1 / 2) = "0.5" ∧
    c7Env.from_str "0.5" = .ok (Json.num (1 / 2)) ∧
    (intoTransformResult (SnippetValue.f64 (1 / 2)) = GenTransformResult.sampleRate (1 / 2) ∧
      transform c7Env okReq = ⟨200, ⟨true, some (Json.num (1 / 2)), none, none⟩⟩) :=
  ⟨rfl, rfl, rfl, rfl, rfl, rfl,
    transform_sampler_claim c7Env okReq ⟨true, "0.5\n", ""⟩ c7Ser c7Disp rfl rfl rfl rfl rfl rfl⟩
